import Mathlib

/-!
Verification development for the lesson-playback engine of the 3D medic
builder: a shallow embedding of the viewer (desktop/mobile) step state
machine, the WebXR playback path, the first-person locomotion/collision
controller and the sequential model-loading pipeline, together with
theorems settling the specification claims.

Coordinates are embedded as rationals.  Distance comparisons from the
source (`a.distanceTo(b) < t`) are embedded as squared-distance
comparisons (`dist2 a b < t ^ 2`), which is equivalent for `t > 0`
since both sides of the original comparison are non-negative.
-/

/- Batteries seals the rational-number operations against definitional
unfolding; re-opening them lets `decide` and `rfl` evaluate the embedded
engine on concrete scenes. -/
set_option allowUnsafeReducibility true in
attribute [semireducible] Rat.add Rat.mul Rat.sub Rat.inv

namespace MedicBuilder

/-- 3-component vector with rational coordinates (embedding of THREE.Vector3). -/
structure Vec3 where
  x : ℚ
  y : ℚ
  z : ℚ
deriving DecidableEq, Repr

def Vec3.add (a b : Vec3) : Vec3 := ⟨a.x + b.x, a.y + b.y, a.z + b.z⟩

def Vec3.sub (a b : Vec3) : Vec3 := ⟨a.x - b.x, a.y - b.y, a.z - b.z⟩

def Vec3.scale (c : ℚ) (a : Vec3) : Vec3 := ⟨c * a.x, c * a.y, c * a.z⟩

/-- Squared length (THREE.Vector3.lengthSq). -/
def Vec3.len2 (a : Vec3) : ℚ := a.x ^ 2 + a.y ^ 2 + a.z ^ 2

/-- Squared distance between two points. -/
def Vec3.dist2 (a b : Vec3) : ℚ := (a.sub b).len2

/-- Affine world matrix of a camera or controller: linear part plus
translation.  `THREE.Vector3.applyMatrix4` on a rigid-body world matrix
(whose last row is 0 0 0 1) reduces to exactly this affine map. -/
structure Affine where
  r00 : ℚ
  r01 : ℚ
  r02 : ℚ
  r10 : ℚ
  r11 : ℚ
  r12 : ℚ
  r20 : ℚ
  r21 : ℚ
  r22 : ℚ
  tx : ℚ
  ty : ℚ
  tz : ℚ
deriving DecidableEq, Repr

def Affine.apply (m : Affine) (v : Vec3) : Vec3 :=
  ⟨m.r00 * v.x + m.r01 * v.y + m.r02 * v.z + m.tx,
   m.r10 * v.x + m.r11 * v.y + m.r12 * v.z + m.ty,
   m.r20 * v.x + m.r21 * v.y + m.r22 * v.z + m.tz⟩

/-- A world matrix with identity rotation and the given translation. -/
def Affine.translation (t : Vec3) : Affine :=
  ⟨1, 0, 0, 0, 1, 0, 0, 0, 1, t.x, t.y, t.z⟩

/-- Asset kinds (the `type` field of the source's `Asset` interface). -/
inductive AssetType where
  | model
  | text
  | shape
  | playerStart
deriving DecidableEq, Repr

/-- A placed scene object (src/unnamed/part_003, `interface Asset`), restricted
to the fields the playback engine reads.  Optional fields keep their
`undefined` possibility as `Option`. -/
structure Asset where
  id : String
  name : String
  type : AssetType
  position : Vec3
  rotation : Vec3
  scale : Vec3
  color : String
  url : Option String
  content : Option String
  visible : Option Bool
  isCollidable : Option Bool
  opacity : Option ℚ
deriving DecidableEq, Repr

/-- JS test `x !== false` on an optional boolean field (used by the source for
`visible` and `isCollidable`, whose default is true). -/
def jsNotFalse : Option Bool → Bool
  | some false => false
  | _ => true

/-- JS truthiness of an optional string (`undefined` and the empty string are
falsy). -/
def strTruthy : Option String → Bool
  | some s => !(s == "")
  | none => false

/-- `targetAction` of a step. -/
inductive TargetAction where
  | actNone
  | actClick
  | actMove
deriving DecidableEq, Repr

/-- One instructional step (src/unnamed/part_003, `interface Step`). -/
structure Step where
  id : String
  title : String
  instruction : String
  targetAction : TargetAction
  targetAssetId : Option String
  targetPosition : Option Vec3
  snapAnchorId : Option String
deriving DecidableEq, Repr

/-- `sessionAssets.find(a => a.id === id?)`: JS comparison with `undefined`
is always false, so a missing id finds nothing. -/
def findAsset (assets : List Asset) (id? : Option String) : Option Asset :=
  match id? with
  | none => none
  | some i => assets.find? (fun a => a.id == i)

/-! ## Desktop/mobile viewer state machine (src/components/Viewer.tsx) -/

/-- Snap distance threshold used by InteractionManager (Viewer.tsx:420). -/
def snapThresholdDesktop : ℚ := 3 / 2

/-- Snap distance threshold used by the WebXR carry logic (part_007:646). -/
def snapThresholdVR : ℚ := 1 / 5

/-- Delay in milliseconds of `setTimeout(handleNext, 800)` (Viewer.tsx:424). -/
def snapAdvanceDelayMs : Nat := 800

/-- Carry offset in front of the camera (Viewer.tsx:412). -/
def holdOffsetDesktop : Vec3 := ⟨0, 0, -5/2⟩

/-- Carry offset in front of the VR controller (part_007:632). -/
def holdOffsetVR : Vec3 := ⟨0, 0, -3/10⟩

/-- React state of the `Viewer` component that the step state machine owns.
`pendingAdvanceMs` models a scheduled `setTimeout(handleNext, ms)`. -/
structure ViewerState where
  currentStepIndex : Nat
  completed : Bool
  sessionAssets : List Asset
  isSnapped : Bool
  isHolding : Bool
  pendingAdvanceMs : Option Nat
deriving DecidableEq, Repr

/-- `setCurrentStepIndex` together with the effect on `[currentStepIndex]`
(Viewer.tsx:352-355) that clears `isSnapped` and `isHolding`.  React runs the
effect exactly when the stored index value actually changes. -/
def setStepIndex (s : ViewerState) (i : Nat) : ViewerState :=
  if i = s.currentStepIndex then s
  else { s with currentStepIndex := i, isSnapped := false, isHolding := false }

/-- `handleNext` (Viewer.tsx:357-363).  JS `currentStepIndex <
project.steps.length - 1` agrees with the truncated Nat subtraction used
here on every Nat input. -/
def handleNext (steps : List Step) (s : ViewerState) : ViewerState :=
  if s.currentStepIndex < steps.length - 1 then
    setStepIndex s (s.currentStepIndex + 1)
  else
    { s with completed := true }

/-- `handleInteraction` (Viewer.tsx:365-399).  `hit` is the outcome of the
screen raycast plus upward parent walk: `some resolvedId` when the ray
intersected anything (the walk always yields a name or a uuid, both
non-empty strings).  Note the source computes `assetId` but never compares
it against `targetAssetId`. -/
def handleInteraction (steps : List Step) (s : ViewerState) (hit : Option String) :
    ViewerState :=
  if s.completed || s.isSnapped then s
  else
    match hit with
    | none => s
    | some _assetId =>
      match steps.get? s.currentStepIndex with
      | none => s
      | some st =>
        if st.targetAction = TargetAction.actClick ∧
            (findAsset s.sessionAssets st.targetAssetId).isSome then
          handleNext steps s
        else if st.targetAction = TargetAction.actMove ∧
            (findAsset s.sessionAssets st.targetAssetId).isSome ∧
            s.isHolding = false then
          { s with isHolding := true }
        else s

/-- `updateAssetSessionPos` (Viewer.tsx:477-479): replaces the matching asset
by a fresh object with the new position (the original object is not mutated). -/
def updateAssetSessionPos (assets : List Asset) (id : String) (pos : Vec3) :
    List Asset :=
  assets.map (fun a => if a.id = id then { a with position := pos } else a)

/-- The per-frame body of `InteractionManager` (Viewer.tsx:407-430).  `cam` is
the camera world matrix.  All reads of `sessionAssets` inside one frame see the
render snapshot `s.sessionAssets`; the two `updateAssetSessionPos` calls are
queued functional updates applied in order.  The snap branch exists only when
the step has a (truthy) `snapAnchorId`. -/
def interactionFrame (steps : List Step) (cam : Affine) (s : ViewerState) :
    ViewerState :=
  match steps.get? s.currentStepIndex with
  | none => s
  | some st =>
    if s.isHolding = true ∧ strTruthy st.targetAssetId = true ∧ s.isSnapped = false then
      match findAsset s.sessionAssets st.targetAssetId with
      | none => s
      | some targetAsset =>
        let holdPos := cam.apply holdOffsetDesktop
        let s1 := { s with
          sessionAssets := updateAssetSessionPos s.sessionAssets targetAsset.id holdPos }
        if strTruthy st.snapAnchorId = true then
          match findAsset s.sessionAssets st.snapAnchorId with
          | none => s1
          | some anchorAsset =>
            let anchorPos := anchorAsset.position
            if holdPos.dist2 anchorPos < snapThresholdDesktop ^ 2 then
              { s1 with
                isSnapped := true
                isHolding := false
                sessionAssets :=
                  updateAssetSessionPos s1.sessionAssets targetAsset.id anchorPos
                pendingAdvanceMs := some snapAdvanceDelayMs }
            else s1
        else s1
    else s

/-- The scheduled `setTimeout(handleNext, 800)` firing. -/
def snapTimerFire (steps : List Step) (s : ViewerState) : ViewerState :=
  match s.pendingAdvanceMs with
  | some _ => handleNext steps { s with pendingAdvanceMs := none }
  | none => s

/-- The Back button (Viewer.tsx:672-677), disabled when the index is 0 or the
step is snapped. -/
def handleBack (s : ViewerState) : ViewerState :=
  if s.currentStepIndex = 0 ∨ s.isSnapped = true then s
  else setStepIndex s (s.currentStepIndex - 1)

/-- `handleRestart` (Viewer.tsx:481-485). -/
def handleRestart (projectAssets : List Asset) (s : ViewerState) : ViewerState :=
  setStepIndex { s with completed := false, sessionAssets := projectAssets } 0

/-- The Close button on the completion screen (Viewer.tsx:737-740). -/
def handleClose (steps : List Step) (s : ViewerState) : ViewerState :=
  setStepIndex { s with completed := false } steps.length

/-- The discrete inputs that can reach the viewer's step state machine. -/
inductive ViewerEvent where
  | activate (hit : Option String)
  | nextTrigger
  | backBtn
  | frame (cam : Affine)
  | timerFire
  | restartBtn
  | closeBtn

/-- Dispatch of one event against the viewer state. -/
def applyViewerEvent (steps : List Step) (projectAssets : List Asset) :
    ViewerEvent → ViewerState → ViewerState
  | ViewerEvent.activate hit, s => handleInteraction steps s hit
  | ViewerEvent.nextTrigger, s => handleNext steps s
  | ViewerEvent.backBtn, s => handleBack s
  | ViewerEvent.frame cam, s => interactionFrame steps cam s
  | ViewerEvent.timerFire, s => snapTimerFire steps s
  | ViewerEvent.restartBtn, s => handleRestart projectAssets s
  | ViewerEvent.closeBtn, s => handleClose steps s

/-! ## First-person locomotion and collision (the `Player` useFrame body,
Viewer.tsx:195-277) -/

/-- The collidable subset computed by the `collidableAssets` useMemo
(Viewer.tsx:348-350): assets with `isCollidable !== false` that are not the
player-spawn marker. -/
def collidableAssetsOf (sessionAssets : List Asset) : List Asset :=
  sessionAssets.filter
    (fun a => jsNotFalse a.isCollidable && !(a.type = AssetType.playerStart))

/-- A scene-graph node.  `rayHit` is the distance at which this frame's
movement ray (origin at the camera position, direction along the intended
move) intersects this node's geometry, `none` when the ray misses; the
geometric intersection itself is three.js territory and enters the model as
this per-node datum. -/
inductive SceneTree where
  | node (name : String) (isMesh : Bool) (rayHit : Option ℚ) (children : List SceneTree)

mutual

/-- The mesh-gathering traversal (Viewer.tsx:248-259): a mesh is collected
when its own name or any ancestor's name is a collidable asset id.  Returns
the ray-hit distances of the gathered meshes. -/
def collectHits (ids : List String) (anc : Bool) : SceneTree → List ℚ
  | SceneTree.node n isMesh rayHit children =>
    let here := anc || ids.contains n
    (if isMesh && here then rayHit.toList else []) ++ collectHitsList ids here children

def collectHitsList (ids : List String) (anc : Bool) : List SceneTree → List ℚ
  | [] => []
  | t :: ts => collectHits ids anc t ++ collectHitsList ids anc ts

end

/-- `raycaster.intersectObjects` sorts hits by distance; the code reads only
`hits[0].distance`, i.e. the minimum. -/
def nearestHit (l : List ℚ) : Option ℚ :=
  l.foldr (fun d acc => match acc with
    | none => some d
    | some m => some (min d m)) none

/-- The source's cancel test `hits[0].distance < playerRadius +
nextMove.length()` with `playerRadius = 0.5`, stated without square roots:
for the non-negative hit distance `d` this Boolean is equal to the original
comparison (`d < 1/2 + ‖m‖  ↔  d < 1/2 ∨ (d - 1/2)² < ‖m‖²`). -/
def rayBlocked (d : ℚ) (nextMove : Vec3) : Bool :=
  decide (d < 1/2) || decide ((d - 1/2) ^ 2 < nextMove.len2)

/-- Result of one locomotion frame: new camera position and velocity. -/
structure PlayerFrameResult where
  camPos : Vec3
  velocity : Vec3
deriving DecidableEq, Repr

/-- The collision-and-movement block (Viewer.tsx:242-274): when the velocity
is non-negligible, gather the collidable meshes, cast the movement ray, and
either cancel the whole frame's movement (velocity zeroed) or apply the whole
displacement. -/
def playerCollisionStep (scene : List SceneTree) (cAssets : List Asset)
    (camPos velocity : Vec3) (delta : ℚ) : PlayerFrameResult :=
  if velocity.len2 > 1/1000 then
    let ids := cAssets.map Asset.id
    let nextMove := Vec3.scale delta velocity
    match nearestHit (collectHitsList ids false scene) with
    | some d =>
      if rayBlocked d nextMove then ⟨camPos, ⟨0, 0, 0⟩⟩
      else ⟨camPos.add nextMove, velocity⟩
    | none => ⟨camPos.add nextMove, velocity⟩
  else ⟨camPos, velocity⟩

/-- WASD key state (Viewer.tsx:112). -/
structure MoveKeys where
  forward : Bool
  backward : Bool
  left : Bool
  right : Bool
deriving DecidableEq, Repr

def MoveKeys.none : MoveKeys := ⟨false, false, false, false⟩

/-- Friction decay applied to the x and z velocity components
(Viewer.tsx:214-215): `velocity -= velocity * friction * delta` with
`friction = 10`. -/
def frictionStep (delta : ℚ) (v : Vec3) : Vec3 :=
  ⟨v.x - v.x * 10 * delta, v.y, v.z - v.z * 10 * delta⟩

/-- The velocity/position part of the `Player` useFrame body
(Viewer.tsx:195-277), outside VR presentation.  `camDir` and `camSide` are
the camera's flattened look direction and right vector; `dirUnit` stands for
`moveDirection.normalize()` (its normalization is irrational in general, so
the caller supplies the unit vector; it is only consulted when the input
produces a non-zero `moveDirection`).  The rotation-from-look-input part only
changes camera orientation and is omitted; the camera y pin at spawn height
plus eye height 1.6 is applied at the end. -/
def playerFrame (isMobile : Bool) (scene : List SceneTree) (cAssets : List Asset)
    (keys : MoveKeys) (joy : ℚ × ℚ) (camDir camSide dirUnit : Vec3)
    (initialPosY : ℚ) (camPos velocity : Vec3) (delta : ℚ) : PlayerFrameResult :=
  let speed : ℚ := if isMobile then 5/2 else 5
  let v1 := frictionStep delta velocity
  let fwd : ℚ := (if keys.forward then 1 else 0) - (if keys.backward then 1 else 0)
  let side : ℚ := (if keys.right then 1 else 0) - (if keys.left then 1 else 0)
  let moveZ := if fwd ≠ 0 then fwd else joy.2
  let moveX := if side ≠ 0 then side else joy.1
  let moveDirection :=
    (if moveZ ≠ 0 then Vec3.scale moveZ camDir else ⟨0, 0, 0⟩).add
      (if moveX ≠ 0 then Vec3.scale moveX camSide else ⟨0, 0, 0⟩)
  let v2 : Vec3 :=
    if moveDirection.len2 > 0 then ⟨dirUnit.x * speed, v1.y, dirUnit.z * speed⟩ else v1
  let r := playerCollisionStep scene cAssets camPos v2 delta
  ⟨⟨r.camPos.x, initialPosY + 8/5, r.camPos.z⟩, r.velocity⟩

/-! ## WebXR playback path (src/unnamed/part_007)

The WebXR component keeps `sessionAssets = [...(project?.assets || [])]`, a
shallow copy: the array is fresh but its elements are the very objects of
`project.assets`.  To express that aliasing the assets live in an explicit
object store (`heap`), and both `projectRefs` and `sessionRefs` are lists of
references into it. -/

/-- Object store lookup. -/
def heapGet (h : List (Nat × Asset)) (r : Nat) : Option Asset :=
  (h.find? (fun p => p.1 == r)).map Prod.snd

/-- In-place mutation `asset.position = [...]` of the object behind `r`. -/
def heapSetPos (h : List (Nat × Asset)) (r : Nat) (pos : Vec3) :
    List (Nat × Asset) :=
  h.map (fun p => if p.1 = r then (p.1, { p.2 with position := pos }) else p)

/-- `sessionAssets.find(a => a.id === id)` over a reference list. -/
def findRefById (h : List (Nat × Asset)) (refs : List Nat) (id : String) :
    Option Nat :=
  refs.find? (fun r =>
    match heapGet h r with
    | some a => a.id == id
    | none => false)

/-- Position of a named three.js scene object (`scene.getObjectByName`). -/
def sceneGetPos : List (String × Vec3) → String → Option Vec3
  | [], _ => none
  | p :: t, n => if p.1 = n then some p.2 else sceneGetPos t n

/-- `heldObj.position.copy(...)`: update the named scene object's position. -/
def sceneSetPos : List (String × Vec3) → String → Vec3 → List (String × Vec3)
  | [], _, _ => []
  | p :: t, n, pos => (if p.1 = n then (p.1, pos) else p) :: sceneSetPos t n pos

/-- Mutable state of the WebXR playback component (part_007:26-34),
restricted to what the lesson logic reads and writes. -/
structure XRState where
  isLoading : Bool
  isStarted : Bool
  currentStepIndex : Nat
  completed : Bool
  holdingAssetId : Option String
  holdingHand : Option Nat
  heap : List (Nat × Asset)
  projectRefs : List Nat
  sessionRefs : List Nat
  scenePos : List (String × Vec3)
deriving DecidableEq, Repr

/-- `handleNext` of the WebXR path (part_007:399-416); the UI refresh calls
are display-only. -/
def xrHandleNext (steps : List Step) (st : XRState) : XRState :=
  if st.currentStepIndex < steps.length - 1 then
    { st with currentStepIndex := st.currentStepIndex + 1 }
  else
    { st with completed := true }

/-- The hit loop of `onSelectStart` (part_007:431-457).  Each entry of `hits`
is the name found by the upward parent walk for one intersection, in hit
order ("" when the walk ended nameless).  A hit that matches no handled case
falls through to the next one. -/
def xrProcessHits (steps : List Step) (controller : Nat) (st : XRState) :
    List String → XRState
  | [] => st
  | assetId :: rest =>
    if assetId = "btn_start" then
      xrHandleNext steps { st with isStarted := true }
    else
      match steps.get? st.currentStepIndex with
      | some cs =>
        if st.isStarted = true ∧ ¬ assetId = "" ∧ cs.targetAssetId = some assetId then
          if cs.targetAction = TargetAction.actClick then
            xrHandleNext steps st
          else if cs.targetAction = TargetAction.actMove ∧ st.holdingAssetId = none then
            { st with holdingAssetId := some assetId, holdingHand := some controller }
          else xrProcessHits steps controller st rest
        else xrProcessHits steps controller st rest
      | none => xrProcessHits steps controller st rest

/-- `onSelectStart` (part_007:418-459). -/
def onSelectStart (steps : List Step) (controller : Nat) (hits : List String)
    (st : XRState) : XRState :=
  if st.isLoading = true ∨ st.completed = true then st
  else xrProcessHits steps controller st hits

/-- `onSelectEnd` (part_007:461-464). -/
def onSelectEnd (st : XRState) : XRState :=
  { st with holdingAssetId := none, holdingHand := none }

/-- The destination resolution inside the carry block (part_007:637-644):
the current position of the `snapAnchorId` asset when that id is truthy,
otherwise the step's literal `targetPosition`. -/
def xrDestination (st : XRState) (cs : Step) : Option Vec3 :=
  if strTruthy cs.snapAnchorId = true then
    match cs.snapAnchorId with
    | some aid =>
      match findRefById st.heap st.sessionRefs aid with
      | some r => (heapGet st.heap r).map Asset.position
      | none => none
    | none => none
  else cs.targetPosition

/-- The carrying-and-snapping block at the top of `handleLocomotion`
(part_007:622-657).  `handMat` is the holding controller's world matrix.
Within the VR threshold of the destination, the held scene object and the
session asset record are both set to the destination, holding is cleared and
the step advances in the same frame. -/
def xrCarryFrame (steps : List Step) (handMat : Affine) (st : XRState) : XRState :=
  if st.isLoading = true then st
  else
    match st.holdingAssetId, st.holdingHand with
    | some hid, some _hand =>
      match sceneGetPos st.scenePos hid with
      | none => st
      | some _ =>
        let holdPos := handMat.apply holdOffsetVR
        let st1 := { st with scenePos := sceneSetPos st.scenePos hid holdPos }
        match steps.get? st.currentStepIndex with
        | none => st1
        | some cs =>
          match xrDestination st cs with
          | some tp =>
            if holdPos.dist2 tp < snapThresholdVR ^ 2 then
              let st2 := { st1 with scenePos := sceneSetPos st1.scenePos hid tp }
              let st3 :=
                match findRefById st2.heap st2.sessionRefs hid with
                | some r => { st2 with heap := heapSetPos st2.heap r tp }
                | none => st2
              xrHandleNext steps { st3 with holdingAssetId := none, holdingHand := none }
            else st1
          | none => st1
    | _, _ => st

/-! ## Sequential model-loading pipeline (`loadModels`, part_007:208-305 and
part_008:89-197)

The async function is embedded as the trace of observable events it emits, in
program order.  `fails k` says whether the k-th issued load (counting only
external-model assets with a url) rejects. -/

/-- The loop guard `asset.type === 'model' && asset.url`. -/
def isModelAsset (a : Asset) : Bool := a.type = AssetType.model && a.url.isSome

/-- `total`: the number of loads the pipeline will issue. -/
def numModels (assets : List Asset) : Nat := (assets.filter isModelAsset).length

/-- Observable events of the loading pipeline. -/
inductive LoadEvent where
  | progress (cur total : Nat)
  | loadStart (k : Nat)
  | insert (k : Nat)
  | loadFail (k : Nat)
  | compile
  | stabDelay (ms : Nat)
  | enableInteraction
deriving DecidableEq, Repr

/-- One iteration of the loading loop for the k-th model asset: show the
progress counter, issue the load, then either insert the model into the scene
(`scene.add`, followed by `current++`) or log and skip the failure. -/
def loadBlock (fails : Nat → Bool) (total k cur : Nat) : List LoadEvent :=
  LoadEvent.progress cur total :: LoadEvent.loadStart k ::
    (if fails k then [LoadEvent.loadFail k] else [LoadEvent.insert k])

/-- The `for (const asset of assetsToLoad)` loop.  `k` is the ordinal of the
next load, `cur` the value of the `current` counter. -/
def loadLoop (fails : Nat → Bool) (total : Nat) :
    List Asset → Nat → Nat → List LoadEvent
  | [], _, _ => []
  | a :: rest, k, cur =>
    if isModelAsset a then
      loadBlock fails total k cur ++
        loadLoop fails total rest (k + 1) (if fails k then cur else cur + 1)
    else loadLoop fails total rest k cur

/-- The whole pipeline: the sequential loop, then the shader pre-warm
(`renderer.compile`), the 1000 ms stabilization delay, and the transition that
clears `isLoading` and shows controllers/hands (interaction enabled). -/
def loadTrace (assets : List Asset) (fails : Nat → Bool) : List LoadEvent :=
  loadLoop fails (numModels assets) assets 0 0 ++
    [LoadEvent.compile, LoadEvent.stabDelay 1000, LoadEvent.enableInteraction]

/-- The successive values shown by the progress counter. -/
def progressValues (l : List LoadEvent) : List Nat :=
  l.filterMap (fun e =>
    match e with
    | LoadEvent.progress c _ => some c
    | _ => none)

/-- Number of completed scene-graph insertions in a trace. -/
def insertCount (l : List LoadEvent) : Nat :=
  l.countP (fun e =>
    match e with
    | LoadEvent.insert _ => true
    | _ => false)

/-! ## Concrete fixtures -/

def mkAsset (id nm : String) (pos : Vec3) : Asset :=
  { id := id, name := nm, type := AssetType.model, position := pos,
    rotation := ⟨0, 0, 0⟩, scale := ⟨1, 1, 1⟩, color := "#ffffff",
    url := some "/models/m.glb", content := none, visible := none,
    isCollidable := none, opacity := none }

def objHeart : Asset := mkAsset "obj_heart" "Heart" ⟨0, 1, 0⟩

def objOther : Asset := mkAsset "obj_other" "Other" ⟨1, 1, 0⟩

def objMove : Asset := mkAsset "obj_move" "Movable" ⟨0, 0, 0⟩

def objAnchor : Asset := mkAsset "obj_anchor" "Anchor" ⟨2, 0, 0⟩

def demoAssets : List Asset := [objHeart, objOther, objMove, objAnchor]

def introStep : Step :=
  { id := "step_01", title := "Introduction", instruction := "Welcome",
    targetAction := TargetAction.actNone, targetAssetId := none,
    targetPosition := none, snapAnchorId := none }

def clickHeartStep : Step :=
  { id := "step_02", title := "Find the heart", instruction := "Click the heart",
    targetAction := TargetAction.actClick, targetAssetId := some "obj_heart",
    targetPosition := none, snapAnchorId := none }

def moveAnchorStep : Step :=
  { id := "step_04", title := "Place it", instruction := "Move the object",
    targetAction := TargetAction.actMove, targetAssetId := some "obj_move",
    targetPosition := none, snapAnchorId := some "obj_anchor" }

def movePositionStep : Step :=
  { id := "step_05", title := "Place it there", instruction := "Move the object",
    targetAction := TargetAction.actMove, targetAssetId := some "obj_move",
    targetPosition := some ⟨2, 0, 0⟩, snapAnchorId := none }

def finalStep : Step :=
  { id := "step_03", title := "Done", instruction := "Finished",
    targetAction := TargetAction.actNone, targetAssetId := none,
    targetPosition := none, snapAnchorId := none }

def demoSteps3 : List Step := [introStep, clickHeartStep, finalStep]

def introState : ViewerState :=
  { currentStepIndex := 0, completed := false, sessionAssets := demoAssets,
    isSnapped := false, isHolding := false, pendingAdvanceMs := none }

def clickState : ViewerState :=
  { currentStepIndex := 1, completed := false, sessionAssets := demoAssets,
    isSnapped := true, isHolding := false, pendingAdvanceMs := some snapAdvanceDelayMs }

def clickOpenState : ViewerState :=
  { currentStepIndex := 1, completed := false, sessionAssets := demoAssets,
    isSnapped := false, isHolding := false, pendingAdvanceMs := none }

def vrSteps : List Step := [introStep, moveAnchorStep, finalStep]

def vrHoldState : XRState :=
  { isLoading := false, isStarted := true, currentStepIndex := 1,
    completed := false, holdingAssetId := some "obj_move",
    holdingHand := some 0, heap := [(0, objMove), (1, objAnchor)],
    projectRefs := [0, 1], sessionRefs := [0, 1],
    scenePos := [("obj_move", ⟨0, 0, 0⟩), ("obj_anchor", ⟨2, 0, 0⟩)] }

/-- Controller world matrix whose carry point `(0,0,-0.3)` lands exactly on
the anchor position `(2,0,0)`. -/
def vrHand : Affine := Affine.translation ⟨2, 0, 3/10⟩

/-! ## Claim theorems -/

/-- C1: the claim says a click-step activation advances iff the resolved hit
id equals the step's `targetAssetId`.  The desktop `handleInteraction`
resolves `assetId` but never compares it: with the current step targeting
"obj_heart", an activation whose resolved hit is "obj_other" still advances
the lesson from step 1 to step 2. -/
theorem click_step_advance_ignores_resolved_hit_id :
    clickHeartStep.targetAssetId = some "obj_heart" ∧
    demoSteps3.get? clickOpenState.currentStepIndex = some clickHeartStep ∧
    clickOpenState.currentStepIndex = 1 ∧
    (handleInteraction demoSteps3 clickOpenState (some "obj_other")).currentStepIndex = 2 := by
  decide

/-- C2 counterexample: the claim says the step index advances only after the
fixed ~0.8 s delay; in the VR path a snap advances `currentStepIndex` in the
very frame that detects it (part_007:654 calls `handleNext()` directly, with
no timer). -/
theorem vr_snap_advances_in_same_frame :
    (xrCarryFrame vrSteps vrHand vrHoldState).currentStepIndex =
      vrHoldState.currentStepIndex + 1 := by
  decide

/-- C3 counterexample: holding an unsnapped object in VR (the held object is
still away from the anchor) and releasing the controller select drops it:
`onSelectEnd` clears the carry state. -/
theorem vr_select_end_drop_example :
    vrHoldState.holdingAssetId = some "obj_move" ∧
    sceneGetPos vrHoldState.scenePos "obj_move" = some ⟨0, 0, 0⟩ ∧
    (onSelectEnd vrHoldState).holdingAssetId = none ∧
    (onSelectEnd vrHoldState).holdingHand = none := by
  decide

/-- C3 amended: VR select-end always clears `holdingAssetId` and
`holdingHand` — the object stops being carried (it stays wherever the last
carry frame put it; no position or step state is touched). -/
theorem vr_select_end_clears_carry (st : XRState) :
    (onSelectEnd st).holdingAssetId = none ∧
    (onSelectEnd st).holdingHand = none ∧
    (onSelectEnd st).heap = st.heap ∧
    (onSelectEnd st).scenePos = st.scenePos ∧
    (onSelectEnd st).currentStepIndex = st.currentStepIndex ∧
    (onSelectEnd st).completed = st.completed :=
  ⟨rfl, rfl, rfl, rfl, rfl, rfl⟩

/-- C4: the claim says carries and snaps never mutate the authored project's
original asset objects.  The WebXR session list is a shallow copy
(`[...(project?.assets || [])]`, part_007:34): `sessionRefs` and
`projectRefs` hold the same object references, and the snap assignment
`asset.position = [...]` (part_007:650) writes through to the project's
original asset: the object behind project reference 0 moves from (0,0,0) to
the destination (2,0,0). -/
theorem vr_snap_writes_through_to_project_asset :
    vrHoldState.sessionRefs = vrHoldState.projectRefs ∧
    vrHoldState.projectRefs.get? 0 = some 0 ∧
    (heapGet vrHoldState.heap 0).map Asset.position = some ⟨0, 0, 0⟩ ∧
    (heapGet (xrCarryFrame vrSteps vrHand vrHoldState).heap 0).map Asset.position =
      some ⟨2, 0, 0⟩ := by
  decide

/-! ## Helper lemmas about the carry/snap protocol -/

/-- Two successive functional position updates of the same asset collapse to
the last one. -/
theorem updateAssetSessionPos_overwrite (l : List Asset) (i : String) (p q : Vec3) :
    updateAssetSessionPos (updateAssetSessionPos l i p) i q =
      updateAssetSessionPos l i q := by
  unfold updateAssetSessionPos
  rw [List.map_map]
  refine List.map_congr_left ?_
  intro a _
  by_cases ha : a.id = i
  · simp [Function.comp, ha]
  · simp [Function.comp, ha]

/-- A grab: an activation during an unheld, unsnapped move step whose target
asset is present sets `isHolding` and changes nothing else. -/
theorem handleInteraction_move_grab (steps : List Step) (s : ViewerState)
    (hit : String) (st : Step)
    (hcomp : s.completed = false) (hsnap : s.isSnapped = false)
    (hstep : steps.get? s.currentStepIndex = some st)
    (hact : st.targetAction = TargetAction.actMove)
    (htarget : (findAsset s.sessionAssets st.targetAssetId).isSome = true)
    (hhold : s.isHolding = false) :
    handleInteraction steps s (some hit) = { s with isHolding := true } := by
  unfold handleInteraction
  rw [hcomp, hsnap]
  dsimp only
  rw [hstep]
  dsimp only
  have h1 : ¬ (st.targetAction = TargetAction.actClick ∧
      (findAsset s.sessionAssets st.targetAssetId).isSome = true) := by
    simp [hact]
  have h2 : st.targetAction = TargetAction.actMove ∧
      (findAsset s.sessionAssets st.targetAssetId).isSome = true ∧
      s.isHolding = false := ⟨hact, htarget, hhold⟩
  rw [if_neg h1, if_pos h2]
  simp

/-- A carry frame that does not snap (no truthy anchor id, anchor not found,
or still beyond the threshold) only moves the held asset to the carry point
in front of the camera. -/
theorem interactionFrame_carry (steps : List Step) (cam : Affine) (s : ViewerState)
    (st : Step) (target : Asset)
    (hstep : steps.get? s.currentStepIndex = some st)
    (hhold : s.isHolding = true) (htid : strTruthy st.targetAssetId = true)
    (hsnap : s.isSnapped = false)
    (htarget : findAsset s.sessionAssets st.targetAssetId = some target)
    (hfar : ∀ anchorAsset,
      findAsset s.sessionAssets st.snapAnchorId = some anchorAsset →
      ¬ (cam.apply holdOffsetDesktop).dist2 anchorAsset.position <
        snapThresholdDesktop ^ 2) :
    interactionFrame steps cam s =
      { s with sessionAssets :=
          updateAssetSessionPos s.sessionAssets target.id (cam.apply holdOffsetDesktop) } := by
  unfold interactionFrame
  rw [hstep]
  dsimp only
  rw [if_pos ⟨hhold, htid, hsnap⟩, htarget]
  dsimp only
  by_cases haid : strTruthy st.snapAnchorId = true
  · rw [if_pos haid]
    rcases hfind : findAsset s.sessionAssets st.snapAnchorId with _ | anchorAsset
    · rfl
    · dsimp only
      rw [if_neg (hfar anchorAsset hfind)]
  · rw [if_neg haid]

/-- A carry frame within the snap threshold of a found anchor: the step
snaps, the held asset lands exactly on the anchor position, holding clears
and the 800 ms auto-advance is scheduled. -/
theorem interactionFrame_snap (steps : List Step) (cam : Affine) (s : ViewerState)
    (st : Step) (target anchorAsset : Asset)
    (hstep : steps.get? s.currentStepIndex = some st)
    (hhold : s.isHolding = true) (htid : strTruthy st.targetAssetId = true)
    (hsnap : s.isSnapped = false)
    (htarget : findAsset s.sessionAssets st.targetAssetId = some target)
    (haid : strTruthy st.snapAnchorId = true)
    (hanchor : findAsset s.sessionAssets st.snapAnchorId = some anchorAsset)
    (hnear : (cam.apply holdOffsetDesktop).dist2 anchorAsset.position <
      snapThresholdDesktop ^ 2) :
    interactionFrame steps cam s =
      { s with
        isSnapped := true
        isHolding := false
        sessionAssets := updateAssetSessionPos s.sessionAssets target.id
          anchorAsset.position
        pendingAdvanceMs := some snapAdvanceDelayMs } := by
  unfold interactionFrame
  rw [hstep]
  dsimp only
  rw [if_pos ⟨hhold, htid, hsnap⟩, htarget]
  dsimp only
  rw [if_pos haid, hanchor]
  dsimp only
  rw [if_pos hnear]
  rw [ViewerState.mk.injEq]
  refine ⟨rfl, rfl, ?_, rfl, rfl, rfl⟩
  exact updateAssetSessionPos_overwrite s.sessionAssets target.id _ _

/-- After the snap delay fires, the lesson advances exactly one step (when a
next step exists). -/
theorem snapTimerFire_advances (steps : List Step) (s : ViewerState) (d : Nat)
    (hp : s.pendingAdvanceMs = some d)
    (hlt : s.currentStepIndex < steps.length - 1) :
    (snapTimerFire steps s).currentStepIndex = s.currentStepIndex + 1 := by
  unfold snapTimerFire
  rw [hp]
  dsimp only
  unfold handleNext setStepIndex
  rw [if_pos hlt, if_neg (Nat.succ_ne_self s.currentStepIndex)]

/-- Updating a present scene object's position is visible to a subsequent
lookup. -/
theorem sceneGetPos_set (sc : List (String × Vec3)) (n : String) (p : Vec3)
    (h : (sceneGetPos sc n).isSome = true) :
    sceneGetPos (sceneSetPos sc n p) n = some p := by
  induction sc with
  | nil => simp [sceneGetPos] at h
  | cons a t ih =>
    by_cases ha : a.1 = n
    · simp [sceneGetPos, sceneSetPos, ha]
    · simp only [sceneGetPos, sceneSetPos, if_neg ha] at h ⊢
      exact ih h

/-- A VR carry frame within the snap threshold of the resolved destination:
the held object lands exactly on the destination, holding clears, and the
step index advances (or the lesson completes) in the same frame. -/
theorem xrCarryFrame_snap (steps : List Step) (handMat : Affine) (st : XRState)
    (cs : Step) (hid : String) (hand : Nat) (tp : Vec3)
    (hload : st.isLoading = false)
    (hhold : st.holdingAssetId = some hid)
    (hhand : st.holdingHand = some hand)
    (hscene : (sceneGetPos st.scenePos hid).isSome = true)
    (hstep : steps.get? st.currentStepIndex = some cs)
    (hdest : xrDestination st cs = some tp)
    (hnear : (handMat.apply holdOffsetVR).dist2 tp < snapThresholdVR ^ 2) :
    (xrCarryFrame steps handMat st).holdingAssetId = none ∧
    (xrCarryFrame steps handMat st).holdingHand = none ∧
    sceneGetPos (xrCarryFrame steps handMat st).scenePos hid = some tp ∧
    ((xrCarryFrame steps handMat st).currentStepIndex = st.currentStepIndex + 1 ∨
      (xrCarryFrame steps handMat st).completed = true) := by
  unfold xrCarryFrame
  rw [hload, hhold, hhand]
  dsimp only
  rcases hp : sceneGetPos st.scenePos hid with _ | p0
  · rw [hp] at hscene; simp at hscene
  · dsimp only
    rw [hstep]
    dsimp only
    rw [hdest]
    dsimp only
    rw [if_pos hnear]
    have hset : sceneGetPos
        (sceneSetPos (sceneSetPos st.scenePos hid (handMat.apply holdOffsetVR)) hid tp)
        hid = some tp := by
      apply sceneGetPos_set
      rw [sceneGetPos_set st.scenePos hid _ hscene]
      rfl
    rcases hr : findRefById st.heap st.sessionRefs hid with _ | r <;>
      dsimp only <;>
      unfold xrHandleNext <;>
      by_cases hlt : st.currentStepIndex < steps.length - 1
    · rw [if_pos hlt]
      exact ⟨rfl, rfl, hset, Or.inl rfl⟩
    · rw [if_neg hlt]
      exact ⟨rfl, rfl, hset, Or.inr rfl⟩
    · rw [if_pos hlt]
      exact ⟨rfl, rfl, hset, Or.inl rfl⟩
    · rw [if_neg hlt]
      exact ⟨rfl, rfl, hset, Or.inr rfl⟩

/-- When the step's `snapAnchorId` is not a truthy string, the VR destination
is the step's literal `targetPosition`. -/
theorem xrDestination_no_anchor (st : XRState) (cs : Step)
    (h : strTruthy cs.snapAnchorId = false) :
    xrDestination st cs = cs.targetPosition := by
  unfold xrDestination
  rw [if_neg (by simp [h])]

/-- When the anchor is set and its asset is found, the VR destination is that
asset's current position. -/
theorem xrDestination_anchor (st : XRState) (cs : Step) (aid : String) (r : Nat)
    (a : Asset) (hcs : cs.snapAnchorId = some aid) (haid : ¬ aid = "")
    (hr : findRefById st.heap st.sessionRefs aid = some r)
    (ha : heapGet st.heap r = some a) :
    xrDestination st cs = some a.position := by
  unfold xrDestination
  rw [hcs]
  rw [if_pos (by simp [strTruthy, haid])]
  simp [hr, ha]

/-- On desktop, a step without a truthy `snapAnchorId` can never snap: the
frame leaves `isSnapped`, `isHolding` and the pending advance unchanged. -/
theorem interactionFrame_no_anchor (steps : List Step) (cam : Affine)
    (s : ViewerState) (st : Step)
    (hstep : steps.get? s.currentStepIndex = some st)
    (haid : strTruthy st.snapAnchorId = false) :
    (interactionFrame steps cam s).isSnapped = s.isSnapped ∧
    (interactionFrame steps cam s).isHolding = s.isHolding ∧
    (interactionFrame steps cam s).pendingAdvanceMs = s.pendingAdvanceMs := by
  unfold interactionFrame
  rw [hstep]
  dsimp only
  by_cases hg : s.isHolding = true ∧ strTruthy st.targetAssetId = true ∧
      s.isSnapped = false
  · rw [if_pos hg]
    rcases hfind : findAsset s.sessionAssets st.targetAssetId with _ | target
    · exact ⟨rfl, rfl, rfl⟩
    · dsimp only
      rw [if_neg (by simp [haid])]
      exact ⟨rfl, rfl, rfl⟩
  · rw [if_neg hg]
    exact ⟨rfl, rfl, rfl⟩

/-- C10: on desktop/mobile, while `isSnapped` is set (the post-snap delay) or
the lesson is completed, `handleInteraction` returns immediately: an
activation changes neither the step index, nor the flags, nor any asset. -/
theorem activation_noop_when_snapped_or_completed (steps : List Step)
    (s : ViewerState) (hit : Option String)
    (h : s.completed = true ∨ s.isSnapped = true) :
    handleInteraction steps s hit = s := by
  unfold handleInteraction
  rcases h with h | h <;> simp [h]

theorem activation_noop_when_snapped_or_completed_witness :
    handleInteraction demoSteps3 clickState (some "obj_heart") = clickState :=
  activation_noop_when_snapped_or_completed demoSteps3 clickState (some "obj_heart")
    (Or.inr rfl)

/-- `setStepIndex` leaves the state untouched or clears both flags. -/
theorem setStepIndex_clears (s : ViewerState) (i : Nat)
    (h : (setStepIndex s i).currentStepIndex ≠ s.currentStepIndex) :
    (setStepIndex s i).isHolding = false ∧ (setStepIndex s i).isSnapped = false := by
  unfold setStepIndex at h ⊢
  by_cases hi : i = s.currentStepIndex
  · simp [hi] at h
  · simp [hi]

theorem handleNext_index_clears (steps : List Step) (s : ViewerState)
    (h : (handleNext steps s).currentStepIndex ≠ s.currentStepIndex) :
    (handleNext steps s).isHolding = false ∧ (handleNext steps s).isSnapped = false := by
  unfold handleNext at h ⊢
  by_cases hc : s.currentStepIndex < steps.length - 1
  · rw [if_pos hc] at h ⊢
    exact setStepIndex_clears s _ h
  · rw [if_neg hc] at h
    exact absurd rfl h

/-- The outcomes of one desktop activation. -/
theorem handleInteraction_cases (steps : List Step) (s : ViewerState)
    (hit : Option String) :
    handleInteraction steps s hit = s ∨
    handleInteraction steps s hit = handleNext steps s ∨
    handleInteraction steps s hit = { s with isHolding := true } := by
  unfold handleInteraction
  repeat' split
  · exact Or.inl rfl
  · exact Or.inl rfl
  · exact Or.inl rfl
  · exact Or.inr (Or.inl rfl)
  · exact Or.inr (Or.inr rfl)
  · exact Or.inl rfl

/-- The outcomes of the snap timer firing. -/
theorem snapTimerFire_cases (steps : List Step) (s : ViewerState) :
    snapTimerFire steps s = s ∨
    snapTimerFire steps s = handleNext steps { s with pendingAdvanceMs := none } := by
  unfold snapTimerFire
  split
  · exact Or.inr rfl
  · exact Or.inl rfl

/-- The per-frame carry logic never changes the step index. -/
theorem interactionFrame_index (steps : List Step) (cam : Affine) (s : ViewerState) :
    (interactionFrame steps cam s).currentStepIndex = s.currentStepIndex := by
  unfold interactionFrame
  repeat' split
  all_goals first
    | rfl
    | (dsimp only []; split <;> rfl)

/-- C9: every change of `currentStepIndex`, through any event (activation,
next trigger, Back, frame, snap timer, Restart, Close), leaves the new step
with `isHolding = false` and `isSnapped = false`. -/
theorem step_index_change_clears_flags (steps : List Step)
    (projectAssets : List Asset) (e : ViewerEvent) (s : ViewerState)
    (h : (applyViewerEvent steps projectAssets e s).currentStepIndex ≠
      s.currentStepIndex) :
    (applyViewerEvent steps projectAssets e s).isHolding = false ∧
    (applyViewerEvent steps projectAssets e s).isSnapped = false := by
  cases e with
  | activate hit =>
    rcases handleInteraction_cases steps s hit with hc | hc | hc <;>
      simp only [applyViewerEvent, hc] at h ⊢
    · exact absurd rfl h
    · exact handleNext_index_clears steps s h
    · exact absurd rfl h
  | nextTrigger =>
    exact handleNext_index_clears steps s h
  | backBtn =>
    simp only [applyViewerEvent, handleBack] at h ⊢
    by_cases hg : s.currentStepIndex = 0 ∨ s.isSnapped = true
    · rw [if_pos hg] at h
      exact absurd rfl h
    · rw [if_neg hg] at h ⊢
      exact setStepIndex_clears s _ h
  | frame cam =>
    rw [applyViewerEvent, interactionFrame_index] at h
    exact absurd rfl h
  | timerFire =>
    rcases snapTimerFire_cases steps s with hc | hc <;>
      simp only [applyViewerEvent, hc] at h ⊢
    · exact absurd rfl h
    · exact handleNext_index_clears steps _ h
  | restartBtn =>
    exact setStepIndex_clears _ _ h
  | closeBtn =>
    exact setStepIndex_clears _ _ h

theorem step_index_change_clears_flags_witness :
    (applyViewerEvent demoSteps3 demoAssets ViewerEvent.nextTrigger introState).isHolding
        = false ∧
    (applyViewerEvent demoSteps3 demoAssets ViewerEvent.nextTrigger introState).isSnapped
        = false :=
  step_index_change_clears_flags demoSteps3 demoAssets ViewerEvent.nextTrigger
    introState (by decide)

def demoStepsMoveAnchor : List Step := [introStep, moveAnchorStep, finalStep]

def demoStepsMovePos : List Step := [introStep, movePositionStep, finalStep]

def moveHoldState : ViewerState :=
  { currentStepIndex := 1, completed := false, sessionAssets := demoAssets,
    isSnapped := false, isHolding := true, pendingAdvanceMs := none }

/-- Camera world matrix whose carry point `(0,0,-2.5)` lands exactly on
`(2,0,0)`. -/
def camNearAnchor : Affine := Affine.translation ⟨2, 0, 5/2⟩

/-- C2 (amended): on desktop/mobile the protocol is as claimed — an
activation during an unheld move step grabs the target; each holding frame
pins the held asset to the fixed offset in front of the camera; within 1.5
units of the anchor the asset lands exactly on the anchor position, holding
clears and a fixed 800 ms timer is scheduled whose firing advances the index
by one.  In VR the threshold is 0.2 but the advance is immediate, in the same
frame, with no delay or snapped flag. -/
theorem carry_and_snap_protocol :
    (∀ (steps : List Step) (s : ViewerState) (hit : String) (st : Step),
      s.completed = false → s.isSnapped = false →
      steps.get? s.currentStepIndex = some st →
      st.targetAction = TargetAction.actMove →
      (findAsset s.sessionAssets st.targetAssetId).isSome = true →
      s.isHolding = false →
      handleInteraction steps s (some hit) = { s with isHolding := true }) ∧
    (∀ (steps : List Step) (cam : Affine) (s : ViewerState) (st : Step)
        (target : Asset),
      steps.get? s.currentStepIndex = some st →
      s.isHolding = true → strTruthy st.targetAssetId = true →
      s.isSnapped = false →
      findAsset s.sessionAssets st.targetAssetId = some target →
      (∀ anchorAsset, findAsset s.sessionAssets st.snapAnchorId = some anchorAsset →
        ¬ (cam.apply holdOffsetDesktop).dist2 anchorAsset.position <
          snapThresholdDesktop ^ 2) →
      interactionFrame steps cam s =
        { s with sessionAssets :=
            (updateAssetSessionPos s.sessionAssets target.id
              (cam.apply holdOffsetDesktop)) }) ∧
    (∀ (steps : List Step) (cam : Affine) (s : ViewerState) (st : Step)
        (target anchorAsset : Asset),
      steps.get? s.currentStepIndex = some st →
      s.isHolding = true → strTruthy st.targetAssetId = true →
      s.isSnapped = false →
      findAsset s.sessionAssets st.targetAssetId = some target →
      strTruthy st.snapAnchorId = true →
      findAsset s.sessionAssets st.snapAnchorId = some anchorAsset →
      (cam.apply holdOffsetDesktop).dist2 anchorAsset.position <
        snapThresholdDesktop ^ 2 →
      interactionFrame steps cam s =
        { s with
          isSnapped := true
          isHolding := false
          sessionAssets := updateAssetSessionPos s.sessionAssets target.id
            anchorAsset.position
          pendingAdvanceMs := some snapAdvanceDelayMs }) ∧
    (∀ (steps : List Step) (s : ViewerState) (d : Nat),
      s.pendingAdvanceMs = some d → s.currentStepIndex < steps.length - 1 →
      (snapTimerFire steps s).currentStepIndex = s.currentStepIndex + 1) ∧
    snapAdvanceDelayMs = 800 ∧ snapThresholdDesktop = 3/2 ∧ snapThresholdVR = 1/5 ∧
    (∀ (steps : List Step) (handMat : Affine) (st : XRState) (cs : Step)
        (hid : String) (hand : Nat) (tp : Vec3),
      st.isLoading = false → st.holdingAssetId = some hid →
      st.holdingHand = some hand →
      (sceneGetPos st.scenePos hid).isSome = true →
      steps.get? st.currentStepIndex = some cs →
      xrDestination st cs = some tp →
      (handMat.apply holdOffsetVR).dist2 tp < snapThresholdVR ^ 2 →
      (xrCarryFrame steps handMat st).holdingAssetId = none ∧
      sceneGetPos (xrCarryFrame steps handMat st).scenePos hid = some tp ∧
      ((xrCarryFrame steps handMat st).currentStepIndex = st.currentStepIndex + 1 ∨
        (xrCarryFrame steps handMat st).completed = true)) := by
  refine ⟨?_, ?_, ?_, ?_, rfl, rfl, rfl, ?_⟩
  · intro steps s hit st h1 h2 h3 h4 h5 h6
    exact handleInteraction_move_grab steps s hit st h1 h2 h3 h4 h5 h6
  · intro steps cam s st target h1 h2 h3 h4 h5 h6
    exact interactionFrame_carry steps cam s st target h1 h2 h3 h4 h5 h6
  · intro steps cam s st target anchorAsset h1 h2 h3 h4 h5 h6 h7 h8
    exact interactionFrame_snap steps cam s st target anchorAsset h1 h2 h3 h4 h5 h6 h7 h8
  · intro steps s d h1 h2
    exact snapTimerFire_advances steps s d h1 h2
  · intro steps handMat st cs hid hand tp h1 h2 h3 h4 h5 h6 h7
    obtain ⟨ha, _, hc, hd⟩ :=
      xrCarryFrame_snap steps handMat st cs hid hand tp h1 h2 h3 h4 h5 h6 h7
    exact ⟨ha, hc, hd⟩

theorem carry_and_snap_protocol_witness :
    interactionFrame demoStepsMoveAnchor camNearAnchor moveHoldState =
      { moveHoldState with
        isSnapped := true
        isHolding := false
        sessionAssets := updateAssetSessionPos moveHoldState.sessionAssets objMove.id
          objAnchor.position
        pendingAdvanceMs := some snapAdvanceDelayMs } :=
  carry_and_snap_protocol.2.2.1 demoStepsMoveAnchor camNearAnchor moveHoldState
    moveAnchorStep objMove objAnchor (by decide) (by decide) (by decide) (by decide)
    (by decide) (by decide) (by decide) (by decide)

/-- C7 counterexample: on desktop, a move step with no `snapAnchorId` but an
explicit `targetPosition` never snaps, even with the held carry point exactly
on `targetPosition`: `InteractionManager` consults only `snapAnchorId`. -/
theorem desktop_move_without_anchor_never_snaps_example :
    movePositionStep.snapAnchorId = none ∧
    movePositionStep.targetPosition = some ⟨2, 0, 0⟩ ∧
    demoStepsMovePos.get? moveHoldState.currentStepIndex = some movePositionStep ∧
    moveHoldState.isHolding = true ∧
    (camNearAnchor.apply holdOffsetDesktop).dist2 ⟨2, 0, 0⟩ <
      snapThresholdDesktop ^ 2 ∧
    (interactionFrame demoStepsMovePos camNearAnchor moveHoldState).isSnapped = false ∧
    (interactionFrame demoStepsMovePos camNearAnchor moveHoldState).pendingAdvanceMs
        = none ∧
    (interactionFrame demoStepsMovePos camNearAnchor moveHoldState).currentStepIndex
        = moveHoldState.currentStepIndex := by
  decide

/-- C7 (amended): in VR the per-frame snap destination is the current
position of the `snapAnchorId` asset when set, else the literal
`targetPosition`, and a move step with only a `targetPosition` can be snapped
and completed there; on desktop/mobile only `snapAnchorId` is consulted, and
a move step without a truthy anchor id never snaps. -/
theorem snap_destination_resolution :
    (∀ (st : XRState) (cs : Step), strTruthy cs.snapAnchorId = false →
      xrDestination st cs = cs.targetPosition) ∧
    (∀ (st : XRState) (cs : Step) (aid : String) (r : Nat) (a : Asset),
      cs.snapAnchorId = some aid → ¬ aid = "" →
      findRefById st.heap st.sessionRefs aid = some r →
      heapGet st.heap r = some a →
      xrDestination st cs = some a.position) ∧
    (∀ (steps : List Step) (cam : Affine) (s : ViewerState) (st : Step),
      steps.get? s.currentStepIndex = some st →
      strTruthy st.snapAnchorId = false →
      (interactionFrame steps cam s).isSnapped = s.isSnapped ∧
      (interactionFrame steps cam s).isHolding = s.isHolding ∧
      (interactionFrame steps cam s).pendingAdvanceMs = s.pendingAdvanceMs) ∧
    (∀ (steps : List Step) (handMat : Affine) (st : XRState) (cs : Step)
        (hid : String) (hand : Nat) (tp : Vec3),
      st.isLoading = false → st.holdingAssetId = some hid →
      st.holdingHand = some hand →
      (sceneGetPos st.scenePos hid).isSome = true →
      steps.get? st.currentStepIndex = some cs →
      strTruthy cs.snapAnchorId = false → cs.targetPosition = some tp →
      (handMat.apply holdOffsetVR).dist2 tp < snapThresholdVR ^ 2 →
      (xrCarryFrame steps handMat st).holdingAssetId = none ∧
      sceneGetPos (xrCarryFrame steps handMat st).scenePos hid = some tp ∧
      ((xrCarryFrame steps handMat st).currentStepIndex = st.currentStepIndex + 1 ∨
        (xrCarryFrame steps handMat st).completed = true)) := by
  refine ⟨xrDestination_no_anchor, xrDestination_anchor, ?_, ?_⟩
  · intro steps cam s st h1 h2
    exact interactionFrame_no_anchor steps cam s st h1 h2
  · intro steps handMat st cs hid hand tp h1 h2 h3 h4 h5 h6 h7 h8
    have hdest : xrDestination st cs = some tp := by
      rw [xrDestination_no_anchor st cs h6, h7]
    obtain ⟨ha, _, hc, hd⟩ :=
      xrCarryFrame_snap steps handMat st cs hid hand tp h1 h2 h3 h4 h5 hdest h8
    exact ⟨ha, hc, hd⟩

theorem snap_destination_resolution_witness :
    (xrCarryFrame demoStepsMovePos vrHand vrHoldState).holdingAssetId = none ∧
    sceneGetPos (xrCarryFrame demoStepsMovePos vrHand vrHoldState).scenePos "obj_move"
        = some ⟨2, 0, 0⟩ ∧
    ((xrCarryFrame demoStepsMovePos vrHand vrHoldState).currentStepIndex =
        vrHoldState.currentStepIndex + 1 ∨
      (xrCarryFrame demoStepsMovePos vrHand vrHoldState).completed = true) :=
  snap_destination_resolution.2.2.2 demoStepsMovePos vrHand vrHoldState
    movePositionStep "obj_move" 0 ⟨2, 0, 0⟩ (by decide) (by decide) (by decide)
    (by decide) (by decide) (by decide) (by decide) (by decide)

/-! ## Collision claim (C6) -/

/-- Stated from the claim's words, for comparison with the source: the same
frame, but with the currently-carried asset excluded from the collidable
set.  The source (Viewer.tsx:348-350) has no such exclusion. -/
def playerCollisionStepSpec (heldId : Option String) (scene : List SceneTree)
    (cAssets : List Asset) (camPos velocity : Vec3) (delta : ℚ) :
    PlayerFrameResult :=
  playerCollisionStep scene (cAssets.filter (fun a => ¬ heldId = some a.id))
    camPos velocity delta

/-- A scene whose only content is the carried asset's model group with a
sub-mesh straight ahead on the movement ray at distance 0.3. -/
def carriedAheadScene : List SceneTree :=
  [SceneTree.node "obj_move" false none [SceneTree.node "" true (some (3/10)) []]]

/-- C6 counterexample: the claim says the ray is cast against the collidable
meshes excluding the currently-carried asset.  The source excludes only the
player-spawn marker: with the carried asset "obj_move" collidable and dead
ahead, the frame is cancelled (velocity zeroed), while the claim's excluded
version would apply the full displacement. -/
theorem collision_includes_carried_asset_example :
    (playerCollisionStep carriedAheadScene (collidableAssetsOf demoAssets)
        ⟨0, 0, 0⟩ ⟨0, 0, -5⟩ (1/10)).camPos = ⟨0, 0, 0⟩ ∧
    (playerCollisionStep carriedAheadScene (collidableAssetsOf demoAssets)
        ⟨0, 0, 0⟩ ⟨0, 0, -5⟩ (1/10)).velocity = ⟨0, 0, 0⟩ ∧
    (playerCollisionStepSpec (some "obj_move") carriedAheadScene
        (collidableAssetsOf demoAssets) ⟨0, 0, 0⟩ ⟨0, 0, -5⟩ (1/10)).camPos
        = ⟨0, 0, -1/2⟩ ∧
    ¬ playerCollisionStep carriedAheadScene (collidableAssetsOf demoAssets)
        ⟨0, 0, 0⟩ ⟨0, 0, -5⟩ (1/10)
      = playerCollisionStepSpec (some "obj_move") carriedAheadScene
        (collidableAssetsOf demoAssets) ⟨0, 0, 0⟩ ⟨0, 0, -5⟩ (1/10) := by
  decide

/-- C6 (amended): the per-frame collision response over the collidable set
that excludes only the player-spawn marker (the carried asset stays in): on a
non-negligible velocity the nearest hit along the movement ray either cancels
the whole frame (position kept, velocity zeroed) when closer than the player
radius plus the travel distance, or the whole displacement is applied —
never a partial move. -/
theorem collision_full_stop_characterization :
    (∀ (sessionAssets : List Asset) (a : Asset),
      a ∈ collidableAssetsOf sessionAssets ↔
        a ∈ sessionAssets ∧ jsNotFalse a.isCollidable = true ∧
          ¬ a.type = AssetType.playerStart) ∧
    (∀ (scene : List SceneTree) (cAssets : List Asset) (camPos v : Vec3) (delta : ℚ),
      (¬ v.len2 > 1/1000 →
        playerCollisionStep scene cAssets camPos v delta = ⟨camPos, v⟩) ∧
      (∀ d, v.len2 > 1/1000 →
        nearestHit (collectHitsList (cAssets.map Asset.id) false scene) = some d →
        rayBlocked d (Vec3.scale delta v) = true →
        playerCollisionStep scene cAssets camPos v delta = ⟨camPos, ⟨0, 0, 0⟩⟩) ∧
      (∀ d, v.len2 > 1/1000 →
        nearestHit (collectHitsList (cAssets.map Asset.id) false scene) = some d →
        rayBlocked d (Vec3.scale delta v) = false →
        playerCollisionStep scene cAssets camPos v delta =
          ⟨camPos.add (Vec3.scale delta v), v⟩) ∧
      (v.len2 > 1/1000 →
        nearestHit (collectHitsList (cAssets.map Asset.id) false scene) = none →
        playerCollisionStep scene cAssets camPos v delta =
          ⟨camPos.add (Vec3.scale delta v), v⟩)) := by
  constructor
  · intro sessionAssets a
    simp [collidableAssetsOf, List.mem_filter]
  · intro scene cAssets camPos v delta
    refine ⟨?_, ?_, ?_, ?_⟩
    · intro hg
      unfold playerCollisionStep
      rw [if_neg hg]
    · intro d hg hn hb
      unfold playerCollisionStep
      rw [if_pos hg]
      dsimp only
      rw [hn]
      dsimp only
      rw [if_pos hb]
    · intro d hg hn hb
      unfold playerCollisionStep
      rw [if_pos hg]
      dsimp only
      rw [hn]
      dsimp only
      rw [hb]
      simp
    · intro hg hn
      unfold playerCollisionStep
      rw [if_pos hg]
      dsimp only
      rw [hn]

theorem collision_full_stop_characterization_witness :
    playerCollisionStep carriedAheadScene (collidableAssetsOf demoAssets)
        ⟨0, 0, 0⟩ ⟨0, 0, -5⟩ (1/10) = ⟨⟨0, 0, 0⟩, ⟨0, 0, 0⟩⟩ :=
  (collision_full_stop_characterization.2 carriedAheadScene
      (collidableAssetsOf demoAssets) ⟨0, 0, 0⟩ ⟨0, 0, -5⟩ (1/10)).2.1
    (3/10) (by decide) (by decide) (by decide)

/-! ## Friction claim (C8) -/

/-- Zero-input frames applied over a sequence of frame deltas: each frame
contributes the friction decay `velocity -= velocity * 10 * delta`. -/
def decayIter (deltas : List ℚ) (v : Vec3) : Vec3 :=
  deltas.foldl (fun w δ => frictionStep δ w) v

/-- C8 counterexample: with frame delta 0.2 s, `1 - friction * delta = -1`:
one zero-input frame turns velocity `(1,0,0)` into `(-1,0,0)` — the x
component reverses sign and the speed does not decay.  The claim's "for
every sequence of positive frame deltas" fails. -/
theorem friction_sign_reversal_at_large_delta :
    (0 : ℚ) < 1/5 ∧
    (frictionStep (1/5) ⟨1, 0, 0⟩).x = -1 ∧
    (playerFrame false [] [] MoveKeys.none (0, 0) ⟨0, 0, -1⟩ ⟨1, 0, 0⟩ ⟨0, 0, 0⟩
        0 ⟨0, 0, 0⟩ ⟨1, 0, 0⟩ (1/5)).velocity.x = -1 := by
  decide

theorem frictionStep_x (delta : ℚ) (v : Vec3) :
    (frictionStep delta v).x = v.x * (1 - 10 * delta) ∧
    (frictionStep delta v).z = v.z * (1 - 10 * delta) ∧
    (frictionStep delta v).y = v.y := by
  unfold frictionStep
  refine ⟨?_, ?_, rfl⟩ <;> ring

/-- Iterated zero-input decay is a single positive scaling `c ≤ 1` of the
x and z components, as long as every frame delta satisfies `10 δ < 1`; as
soon as at least one frame elapsed, `c < 1` strictly, because each frame's
factor `1 - 10 δ` is strictly below 1. -/
theorem decayIter_factor (deltas : List ℚ) (v : Vec3)
    (h : ∀ δ ∈ deltas, 0 < δ ∧ 10 * δ < 1) :
    ∃ c : ℚ, 0 < c ∧ c ≤ 1 ∧ (deltas ≠ [] → c < 1) ∧
      (decayIter deltas v).x = v.x * c ∧
      (decayIter deltas v).z = v.z * c ∧
      (decayIter deltas v).y = v.y := by
  induction deltas generalizing v with
  | nil =>
    exact ⟨1, one_pos, le_refl 1, fun hne => absurd rfl hne,
      by simp [decayIter], by simp [decayIter], rfl⟩
  | cons δ t ih =>
    obtain ⟨hδ, hδ1⟩ := h δ (List.mem_cons_self δ t)
    obtain ⟨c, hc0, hc1, _, hx, hz, hy⟩ :=
      ih (frictionStep δ v) (fun d hd => h d (List.mem_cons_of_mem δ hd))
    have hfac0 : (0 : ℚ) < 1 - 10 * δ := by linarith
    have hlt1 : (1 - 10 * δ) * c < 1 := by
      have hle : (1 - 10 * δ) * c ≤ 1 - 10 * δ :=
        mul_le_of_le_one_right (le_of_lt hfac0) hc1
      linarith
    refine ⟨(1 - 10 * δ) * c, mul_pos hfac0 hc0, le_of_lt hlt1,
      fun _ => hlt1, ?_, ?_, ?_⟩
    · have : decayIter (δ :: t) v = decayIter t (frictionStep δ v) := rfl
      rw [this, hx, (frictionStep_x δ v).1]
      ring
    · have : decayIter (δ :: t) v = decayIter t (frictionStep δ v) := rfl
      rw [this, hz, (frictionStep_x δ v).2.1]
      ring
    · have : decayIter (δ :: t) v = decayIter t (frictionStep δ v) := rfl
      rw [this, hy, (frictionStep_x δ v).2.2]

/-- C8 (amended): friction is applied before the input-driven velocity write;
with zero input the frame's velocity is exactly the friction decay (unless a
collision cancel zeroes it).  For frame deltas `δ` with `10 δ < 1` (that is,
below the 0.1 s decay period of `friction = 10`), the x and z components are
scaled by a single factor `0 < c ≤ 1` over any frame sequence, with `c < 1`
strictly once at least one frame elapsed: no component ever reverses sign,
the speed never grows, and a nonzero component decays strictly every frame;
deltas of 0.1 s or more break this (see the counterexample). -/
theorem friction_decay_bounded_delta :
    (∀ (scene : List SceneTree) (cAssets : List Asset)
        (camDir camSide dirUnit : Vec3) (y0 : ℚ) (camPos v : Vec3) (delta : ℚ),
      (playerFrame false scene cAssets MoveKeys.none (0, 0) camDir camSide dirUnit
          y0 camPos v delta).velocity = frictionStep delta v ∨
      (playerFrame false scene cAssets MoveKeys.none (0, 0) camDir camSide dirUnit
          y0 camPos v delta).velocity = ⟨0, 0, 0⟩) ∧
    (∀ (deltas : List ℚ) (v : Vec3), (∀ δ ∈ deltas, 0 < δ ∧ 10 * δ < 1) →
      ∃ c : ℚ, 0 < c ∧ c ≤ 1 ∧ (deltas ≠ [] → c < 1) ∧
        (decayIter deltas v).x = v.x * c ∧
        (decayIter deltas v).z = v.z * c ∧
        (decayIter deltas v).y = v.y) ∧
    (∀ (deltas : List ℚ) (v : Vec3), (∀ δ ∈ deltas, 0 < δ ∧ 10 * δ < 1) →
      |(decayIter deltas v).x| ≤ |v.x| ∧ (decayIter deltas v).x * v.x ≥ 0 ∧
      |(decayIter deltas v).z| ≤ |v.z| ∧ (decayIter deltas v).z * v.z ≥ 0 ∧
      (deltas ≠ [] → ¬ v.x = 0 → |(decayIter deltas v).x| < |v.x|) ∧
      (deltas ≠ [] → ¬ v.z = 0 → |(decayIter deltas v).z| < |v.z|)) := by
  refine ⟨?_, decayIter_factor, ?_⟩
  · intro scene cAssets camDir camSide dirUnit y0 camPos v delta
    have hA : (playerFrame false scene cAssets MoveKeys.none (0, 0) camDir camSide
        dirUnit y0 camPos v delta).velocity =
        (playerCollisionStep scene cAssets camPos (frictionStep delta v) delta).velocity := by
      unfold playerFrame
      norm_num [MoveKeys.none, Vec3.add, Vec3.len2, Vec3.scale]
    rw [hA]
    unfold playerCollisionStep
    by_cases hg : (frictionStep delta v).len2 > 1/1000
    · rw [if_pos hg]
      dsimp only
      rcases hn : nearestHit (collectHitsList (cAssets.map Asset.id) false scene)
        with _ | d
      · exact Or.inl rfl
      · dsimp only
        by_cases hb : rayBlocked d (Vec3.scale delta (frictionStep delta v)) = true
        · rw [if_pos hb]
          exact Or.inr rfl
        · rw [if_neg hb]
          exact Or.inl rfl
    · rw [if_neg hg]
      exact Or.inl rfl
  · intro deltas v h
    obtain ⟨c, hc0, hc1, hcs, hxe, hze, _⟩ := decayIter_factor deltas v h
    refine ⟨?_, ?_, ?_, ?_, ?_, ?_⟩
    · rw [hxe, abs_mul, abs_of_pos hc0]
      exact mul_le_of_le_one_right (abs_nonneg v.x) hc1
    · rw [hxe]
      have : v.x * c * v.x = v.x ^ 2 * c := by ring
      rw [this]
      positivity
    · rw [hze, abs_mul, abs_of_pos hc0]
      exact mul_le_of_le_one_right (abs_nonneg v.z) hc1
    · rw [hze]
      have : v.z * c * v.z = v.z ^ 2 * c := by ring
      rw [this]
      positivity
    · intro hne hx0
      rw [hxe, abs_mul, abs_of_pos hc0]
      exact mul_lt_of_lt_one_right (abs_pos.mpr hx0) (hcs hne)
    · intro hne hz0
      rw [hze, abs_mul, abs_of_pos hc0]
      exact mul_lt_of_lt_one_right (abs_pos.mpr hz0) (hcs hne)

theorem friction_decay_bounded_delta_witness :
    |(decayIter [1/20, 1/20] (⟨1, 0, 2⟩ : Vec3)).x| < |(⟨1, 0, 2⟩ : Vec3).x| ∧
    |(decayIter [1/20, 1/20] (⟨1, 0, 2⟩ : Vec3)).z| < |(⟨1, 0, 2⟩ : Vec3).z| ∧
    (decayIter [1/20, 1/20] (⟨1, 0, 2⟩ : Vec3)).x * (⟨1, 0, 2⟩ : Vec3).x ≥ 0 :=
  ⟨(friction_decay_bounded_delta.2.2 [1/20, 1/20] ⟨1, 0, 2⟩
      (by decide)).2.2.2.2.1 (by decide) (by decide),
   (friction_decay_bounded_delta.2.2 [1/20, 1/20] ⟨1, 0, 2⟩
      (by decide)).2.2.2.2.2 (by decide) (by decide),
   (friction_decay_bounded_delta.2.2 [1/20, 1/20] ⟨1, 0, 2⟩ (by decide)).2.1⟩

/-! ## Loading pipeline claim (C5) -/

theorem numModels_cons_model (a : Asset) (rest : List Asset)
    (h : isModelAsset a = true) :
    numModels (a :: rest) = numModels rest + 1 := by
  simp [numModels, List.filter_cons, h]

theorem numModels_cons_other (a : Asset) (rest : List Asset)
    (h : isModelAsset a = false) :
    numModels (a :: rest) = numModels rest := by
  simp [numModels, List.filter_cons, h]

theorem loadStart_mem_loadLoop (fails : Nat → Bool) (total : Nat) :
    ∀ (assets : List Asset) (k0 cur k : Nat), k0 ≤ k →
      k < k0 + numModels assets →
      LoadEvent.loadStart k ∈ loadLoop fails total assets k0 cur := by
  intro assets
  induction assets with
  | nil =>
    intro k0 cur k h1 h2
    simp [numModels] at h2
    omega
  | cons a rest ih =>
    intro k0 cur k h1 h2
    simp only [loadLoop]
    by_cases ha : isModelAsset a = true
    · rw [if_pos ha]
      rcases Nat.eq_or_lt_of_le h1 with rfl | hlt
      · exact List.mem_append_left _ (by simp [loadBlock])
      · refine List.mem_append_right _ (ih (k0 + 1) _ k hlt ?_)
        rw [numModels_cons_model a rest ha] at h2
        omega
    · rw [if_neg ha]
      refine ih k0 cur k h1 ?_
      rw [numModels_cons_other a rest (Bool.not_eq_true _ |>.mp ha)] at h2
      exact h2

theorem loadFail_mem_loadLoop (fails : Nat → Bool) (total : Nat) :
    ∀ (assets : List Asset) (k0 cur k : Nat), k0 ≤ k →
      k < k0 + numModels assets → fails k = true →
      LoadEvent.loadFail k ∈ loadLoop fails total assets k0 cur := by
  intro assets
  induction assets with
  | nil =>
    intro k0 cur k h1 h2 _
    simp [numModels] at h2
    omega
  | cons a rest ih =>
    intro k0 cur k h1 h2 hf
    simp only [loadLoop]
    by_cases ha : isModelAsset a = true
    · rw [if_pos ha]
      rcases Nat.eq_or_lt_of_le h1 with rfl | hlt
      · exact List.mem_append_left _ (by simp [loadBlock, hf])
      · refine List.mem_append_right _ (ih (k0 + 1) _ k hlt ?_ hf)
        rw [numModels_cons_model a rest ha] at h2
        omega
    · rw [if_neg ha]
      refine ih k0 cur k h1 ?_ hf
      rw [numModels_cons_other a rest (Bool.not_eq_true _ |>.mp ha)] at h2
      exact h2

/-- Sequencing: when load k succeeds, its scene insertion precedes the start
of load k+1 inside the loop trace. -/
theorem insert_before_next_loadStart (fails : Nat → Bool) (total : Nat) :
    ∀ (assets : List Asset) (k0 cur k : Nat), k0 ≤ k → fails k = false →
      k + 1 < k0 + numModels assets →
      List.Sublist [LoadEvent.insert k, LoadEvent.loadStart (k + 1)]
        (loadLoop fails total assets k0 cur) := by
  intro assets
  induction assets with
  | nil =>
    intro k0 cur k h1 _ h3
    simp [numModels] at h3
    omega
  | cons a rest ih =>
    intro k0 cur k h1 hf h3
    simp only [loadLoop]
    by_cases ha : isModelAsset a = true
    · rw [if_pos ha]
      rw [numModels_cons_model a rest ha] at h3
      rcases Nat.eq_or_lt_of_le h1 with rfl | hlt
      · show List.Sublist ([LoadEvent.insert k0] ++ [LoadEvent.loadStart (k0 + 1)]) _
        refine List.Sublist.append ?_ ?_
        · exact List.singleton_sublist.mpr (by simp [loadBlock, hf])
        · refine List.singleton_sublist.mpr
            (loadStart_mem_loadLoop fails total rest (k0 + 1) _ (k0 + 1)
              (le_refl _) ?_)
          omega
      · exact (ih (k0 + 1) _ k hlt hf (by omega)).trans
          (List.sublist_append_right _ _)
    · rw [if_neg ha]
      refine ih k0 cur k h1 hf ?_
      rw [numModels_cons_other a rest (Bool.not_eq_true _ |>.mp ha)] at h3
      exact h3

theorem progressValues_loadLoop_ge (fails : Nat → Bool) (total : Nat) :
    ∀ (assets : List Asset) (k0 cur v : Nat),
      v ∈ progressValues (loadLoop fails total assets k0 cur) → cur ≤ v := by
  intro assets
  induction assets with
  | nil =>
    intro k0 cur v hv
    simp [loadLoop, progressValues] at hv
  | cons a rest ih =>
    intro k0 cur v hv
    simp only [loadLoop] at hv
    by_cases ha : isModelAsset a = true
    · rw [if_pos ha] at hv
      unfold progressValues at hv
      rw [List.filterMap_append] at hv
      rcases List.mem_append.mp hv with hv | hv
      · by_cases hf : fails k0 = true <;> simp [loadBlock, hf] at hv <;> omega
      · by_cases hf : fails k0 = true
        · rw [if_pos hf] at hv
          exact ih (k0 + 1) cur v hv
        · rw [if_neg hf] at hv
          have := ih (k0 + 1) (cur + 1) v hv
          omega
    · rw [if_neg ha] at hv
      exact ih k0 cur v hv

theorem progressValues_loadLoop_sorted (fails : Nat → Bool) (total : Nat) :
    ∀ (assets : List Asset) (k0 cur : Nat),
      (progressValues (loadLoop fails total assets k0 cur)).Pairwise (· ≤ ·) := by
  intro assets
  induction assets with
  | nil =>
    intro k0 cur
    simp [loadLoop, progressValues]
  | cons a rest ih =>
    intro k0 cur
    simp only [loadLoop]
    by_cases ha : isModelAsset a = true
    · rw [if_pos ha]
      unfold progressValues
      rw [List.filterMap_append]
      have hblock : List.filterMap
          (fun e => match e with
            | LoadEvent.progress c _ => some c
            | _ => none) (loadBlock fails total k0 cur) = [cur] := by
        by_cases hf : fails k0 = true <;> simp [loadBlock, hf]
      rw [hblock]
      rw [List.singleton_append, List.pairwise_cons]
      constructor
      · intro v hv
        by_cases hf : fails k0 = true
        · rw [if_pos hf] at hv
          exact progressValues_loadLoop_ge fails total rest (k0 + 1) cur v hv
        · rw [if_neg hf] at hv
          have := progressValues_loadLoop_ge fails total rest (k0 + 1) (cur + 1) v hv
          omega
      · exact ih (k0 + 1) _
    · rw [if_neg ha]
      exact ih k0 cur

theorem insertCount_loadLoop (fails : Nat → Bool) (total : Nat) :
    ∀ (assets : List Asset) (k0 cur : Nat),
      insertCount (loadLoop fails total assets k0 cur) =
        (List.range' k0 (numModels assets)).countP (fun k => !fails k) := by
  intro assets
  induction assets with
  | nil =>
    intro k0 cur
    simp [loadLoop, insertCount, numModels]
  | cons a rest ih =>
    intro k0 cur
    simp only [loadLoop]
    by_cases ha : isModelAsset a = true
    · rw [if_pos ha, numModels_cons_model a rest ha, List.range'_succ]
      unfold insertCount
      rw [List.countP_append, List.countP_cons]
      have hblock : List.countP
          (fun e => match e with
            | LoadEvent.insert _ => true
            | _ => false) (loadBlock fails total k0 cur) =
          if fails k0 then 0 else 1 := by
        by_cases hf : fails k0 = true <;> simp [loadBlock, hf]
      rw [hblock]
      by_cases hf : fails k0 = true
      · have hih := ih (k0 + 1) cur
        unfold insertCount at hih
        simp [hf] at hih ⊢
        omega
      · have hf' : fails k0 = false := Bool.not_eq_true _ |>.mp hf
        have hih := ih (k0 + 1) (cur + 1)
        unfold insertCount at hih
        simp [hf'] at hih ⊢
        omega
    · rw [if_neg ha, numModels_cons_other a rest (Bool.not_eq_true _ |>.mp ha)]
      exact ih k0 cur

theorem countP_bool_split (p : Nat → Bool) (l : List Nat) :
    l.countP (fun k => !p k) + l.countP p = l.length := by
  induction l with
  | nil => simp
  | cons a t ih =>
    rw [List.countP_cons, List.countP_cons]
    by_cases hp : p a = true <;> simp [hp] <;> omega

/-- C5: the pipeline is sequential — load k+1 starts only after load k's
scene insertion (when k succeeded); a failure is logged and skipped without
aborting; the progress counter is monotone non-decreasing; the number of
insertions is N minus the number of failures; and the shader pre-warm plus
the 1000 ms stabilization delay sit strictly after every load and strictly
before interaction is enabled, which is the final event. -/
theorem sequential_loading_pipeline (assets : List Asset) (fails : Nat → Bool) :
    (∀ k, fails k = false → k + 1 < numModels assets →
      List.Sublist [LoadEvent.insert k, LoadEvent.loadStart (k + 1)]
        (loadTrace assets fails)) ∧
    (∀ k, k < numModels assets →
      List.Sublist [LoadEvent.loadStart k, LoadEvent.compile,
        LoadEvent.stabDelay 1000, LoadEvent.enableInteraction]
        (loadTrace assets fails)) ∧
    (loadTrace assets fails).getLast? = some LoadEvent.enableInteraction ∧
    (∀ k, k < numModels assets → fails k = true →
      LoadEvent.loadFail k ∈ loadTrace assets fails) ∧
    (progressValues (loadTrace assets fails)).Pairwise (· ≤ ·) ∧
    insertCount (loadTrace assets fails) +
        (List.range' 0 (numModels assets)).countP (fun k => fails k)
      = numModels assets := by
  refine ⟨?_, ?_, ?_, ?_, ?_, ?_⟩
  · intro k hf hk
    unfold loadTrace
    exact (insert_before_next_loadStart fails (numModels assets) assets 0 0 k
      (Nat.zero_le k) hf (by omega)).trans (List.sublist_append_left _ _)
  · intro k hk
    unfold loadTrace
    show List.Sublist ([LoadEvent.loadStart k] ++
      [LoadEvent.compile, LoadEvent.stabDelay 1000, LoadEvent.enableInteraction]) _
    refine List.Sublist.append ?_ (List.Sublist.refl _)
    exact List.singleton_sublist.mpr
      (loadStart_mem_loadLoop fails (numModels assets) assets 0 0 k
        (Nat.zero_le k) (by omega))
  · unfold loadTrace
    have : loadLoop fails (numModels assets) assets 0 0 ++
        [LoadEvent.compile, LoadEvent.stabDelay 1000, LoadEvent.enableInteraction] =
        (loadLoop fails (numModels assets) assets 0 0 ++
          [LoadEvent.compile, LoadEvent.stabDelay 1000]) ++
          [LoadEvent.enableInteraction] := by
      simp
    rw [this, List.getLast?_concat]
  · intro k hk hf
    unfold loadTrace
    exact List.mem_append_left _
      (loadFail_mem_loadLoop fails (numModels assets) assets 0 0 k
        (Nat.zero_le k) (by omega) hf)
  · unfold loadTrace progressValues
    rw [List.filterMap_append]
    have htail : List.filterMap
        (fun e => match e with
          | LoadEvent.progress c _ => some c
          | _ => none)
        [LoadEvent.compile, LoadEvent.stabDelay 1000, LoadEvent.enableInteraction] =
        [] := by simp
    rw [htail, List.append_nil]
    exact progressValues_loadLoop_sorted fails (numModels assets) assets 0 0
  · unfold loadTrace insertCount
    rw [List.countP_append]
    have htail : List.countP
        (fun e => match e with
          | LoadEvent.insert _ => true
          | _ => false)
        [LoadEvent.compile, LoadEvent.stabDelay 1000, LoadEvent.enableInteraction] =
        0 := by simp
    rw [htail, Nat.add_zero]
    have h1 := insertCount_loadLoop fails (numModels assets) assets 0 0
    unfold insertCount at h1
    rw [h1]
    have h2 := countP_bool_split fails (List.range' 0 (numModels assets))
    rw [List.length_range'] at h2
    exact h2

theorem sequential_loading_pipeline_witness :
    List.Sublist [LoadEvent.insert 0, LoadEvent.loadStart 1]
      (loadTrace demoAssets (fun _ => false)) ∧
    (loadTrace demoAssets (fun _ => false)).getLast? =
      some LoadEvent.enableInteraction :=
  ⟨(sequential_loading_pipeline demoAssets (fun _ => false)).1 0 rfl (by decide),
   (sequential_loading_pipeline demoAssets (fun _ => false)).2.2.1⟩

end MedicBuilder
